import Mathlib

/-!
Verification of the story-generation pipeline of the `aistory` repository.

The orchestration code (`createStoryAction`, `regeneratePageIllustrationAction`
in the server actions module, and the detail-merging logic of
`handleRegenerateIllustration` in the story viewer) is embedded shallowly:

* each AI flow (`animateCharacter`, `generateStoryFromPreferences`,
  `generateCoverImage`, `generatePageIllustration`) is an opaque external
  capability; a run of the pipeline is parametrised by an `Env` assigning to
  every capability a function from its input to a `CallResult` (either a
  thrown error message or a returned, possibly null, output object);
* JavaScript falsiness of optional string fields is modelled with
  `Option String` (`none` = field absent / result null) together with the
  empty-string check;
* `String.prototype.startsWith`, `trim`, `includes` and `toLowerCase` are
  modelled by structurally recursive functions over the character list of a
  `String`, so that every run of the pipeline on concrete data is computable
  by the kernel;
* the actions additionally return the list of capability calls they make
  (`CallEvent` trace), which makes "stage X is never invoked" provable.
-/

namespace AIStory

/-- Decidable equality of `Except` values, used only to evaluate concrete runs. -/
instance exceptDecEq {ε α : Type} [DecidableEq ε] [DecidableEq α] :
    DecidableEq (Except ε α) := fun a b =>
  match a, b with
  | .error e, .error f =>
      if h : e = f then .isTrue (by rw [h]) else .isFalse (by intro hh; cases hh; exact h rfl)
  | .error _, .ok _ => .isFalse (by intro hh; cases hh)
  | .ok _, .error _ => .isFalse (by intro hh; cases hh)
  | .ok x, .ok y =>
      if h : x = y then .isTrue (by rw [h]) else .isFalse (by intro hh; cases hh; exact h rfl)

/-- Characterwise prefix test, modelling JavaScript `String.prototype.startsWith`. -/
def isPrefixOfChars : List Char → List Char → Bool
  | [], _ => true
  | _ :: _, [] => false
  | a :: as, b :: bs => a == b && isPrefixOfChars as bs

/-- `s.startsWith(pre)` of JavaScript. -/
def strStartsWith (s pre : String) : Bool :=
  isPrefixOfChars pre.data s.data

/-- The image-data marker check `s.startsWith('data:image')` used throughout the actions. -/
def isImageDataUri (s : String) : Bool :=
  strStartsWith s "data:image"

/-- Characterwise substring test, modelling JavaScript `String.prototype.includes`. -/
def containsChars : List Char → List Char → Bool
  | [], pat => pat.isEmpty
  | l@(_ :: t), pat => isPrefixOfChars pat l || containsChars t pat

/-- `s.includes(pat)` of JavaScript. -/
def strIncludes (s pat : String) : Bool :=
  containsChars s.data pat.data

/-- `s.toLowerCase()` of JavaScript (restricted to the alphabetic lowering relevant here). -/
def strToLower (s : String) : String :=
  ⟨s.data.map Char.toLower⟩

/-- Trim whitespace from both ends of a character list. -/
def trimChars (l : List Char) : List Char :=
  ((l.dropWhile Char.isWhitespace).reverse.dropWhile Char.isWhitespace).reverse

/-- `s.trim()` of JavaScript. -/
def jsTrim (s : String) : String :=
  ⟨trimChars s.data⟩

/-- JavaScript `x || ''` on an optional string field (absent and empty both give `''`). -/
def jsOrEmpty : Option String → String
  | none => ""
  | some s => s

/-- Result of awaiting an external AI-flow call: either the call threw (with the
message carried by the thrown error) or it returned a value, where `returns none`
models a null/undefined result object. -/
inductive CallResult (α : Type) where
  | throws (msg : String)
  | returns (val : Option α)

/-- Input of the `animateCharacter` flow (character styling). -/
structure AnimateCharacterInput where
  photoDataUri : String
  characterName : String
  storyTheme : String
  moralLesson : String
  additionalDetails : Option String
deriving DecidableEq

/-- Output object of the `animateCharacter` flow; the field is optional to model
a result object lacking (or holding a falsy) `animatedCharacterDataUri`. -/
structure AnimateCharacterOutput where
  animatedCharacterDataUri : Option String
deriving DecidableEq

/-- One page returned by the story flow: text plus scene description. -/
structure StoryPage where
  text : String
  sceneDescription : String
deriving DecidableEq

/-- Input of the `generateStoryFromPreferences` flow. -/
structure GenerateStoryInput where
  characterImage : String
  characterName : String
  storyTheme : String
  moralLesson : String
  additionalDetails : String
deriving DecidableEq

/-- Output object of the story flow, with every required field optional so that
incomplete results can be represented. -/
structure GenerateStoryOutput where
  title : Option String
  characterDescription : Option String
  pages : Option (List StoryPage)
deriving DecidableEq

/-- Input of the `generateCoverImage` flow. -/
structure GenerateCoverImageInput where
  baseCharacterDataUri : String
  storyTitle : String
  storyTheme : String
  characterName : String
  additionalDetails : Option String
deriving DecidableEq

/-- Output object of the cover flow. -/
structure GenerateCoverImageOutput where
  coverImageDataUri : Option String
deriving DecidableEq

/-- Input of the `generatePageIllustration` flow (also the payload of
`regeneratePageIllustrationAction`). -/
structure GeneratePageIllustrationInput where
  baseCharacterDataUri : String
  pageText : String
  sceneDescription : String
  storyTheme : String
  moralLesson : String
  additionalDetails : Option String
deriving DecidableEq

/-- Output object of the page-illustration flow. -/
structure GeneratePageIllustrationOutput where
  pageImageDataUri : Option String
deriving DecidableEq

/-- An environment fixes, for one run, what every external AI capability does. -/
structure Env where
  animateCharacter : AnimateCharacterInput → CallResult AnimateCharacterOutput
  generateStory : GenerateStoryInput → CallResult GenerateStoryOutput
  generateCover : GenerateCoverImageInput → CallResult GenerateCoverImageOutput
  generateIllustration : GeneratePageIllustrationInput → CallResult GeneratePageIllustrationOutput

/-- A record of one capability invocation (which capability, with which input). -/
inductive CallEvent where
  | animate (input : AnimateCharacterInput)
  | story (input : GenerateStoryInput)
  | cover (input : GenerateCoverImageInput)
  | illustrate (input : GeneratePageIllustrationInput)
deriving DecidableEq

/-- A finished story page: text, scene description and the chosen image URI. -/
structure StoryPageData where
  text : String
  sceneDescription : String
  imageUri : String
deriving DecidableEq

/-- The final aggregate returned on success (`StoryData` of `types/story.ts`,
as extended by the action with theme/moral/details passthrough). -/
structure StoryData where
  title : String
  characterDescription : String
  characterName : String
  originalCharacterUri : String
  coverImageUri : String
  pages : List StoryPageData
  storyTheme : String
  moralLesson : String
  additionalDetails : Option String
deriving DecidableEq

/-- The `CreateStoryResponse` shape of the action. -/
structure CreateStoryResponse where
  success : Bool
  data : Option StoryData
  error : Option String
deriving DecidableEq

/-- The payload of `createStoryAction`. -/
structure CreateStoryPayload where
  characterImageDataUri : String
  characterName : String
  storyTheme : String
  moralLesson : String
  additionalDetails : Option String
deriving DecidableEq

/-- The `characterAnimationInput` built by `createStoryAction` from its payload. -/
def animInputFor (payload : CreateStoryPayload) : AnimateCharacterInput :=
  { photoDataUri := payload.characterImageDataUri
    characterName := payload.characterName
    storyTheme := payload.storyTheme
    moralLesson := payload.moralLesson
    additionalDetails := payload.additionalDetails }

/-- The `storyInput` built by `createStoryAction` from the payload and the styled
base character image: the flow's visual grounding is the styled image, not the upload. -/
def storyInputFor (payload : CreateStoryPayload) (baseCharacterImageUri : String) :
    GenerateStoryInput :=
  { characterImage := baseCharacterImageUri
    characterName := payload.characterName
    storyTheme := payload.storyTheme
    moralLesson := payload.moralLesson
    additionalDetails := jsOrEmpty payload.additionalDetails }

/-- The `coverImageInput` built by `createStoryAction`. -/
def coverInputFor (payload : CreateStoryPayload) (baseCharacterImageUri storyTitle : String) :
    GenerateCoverImageInput :=
  { baseCharacterDataUri := baseCharacterImageUri
    storyTitle := storyTitle
    storyTheme := payload.storyTheme
    characterName := payload.characterName
    additionalDetails := payload.additionalDetails }

/-- The `pageIllustrationInput` built by `createStoryAction` for one composed page. -/
def pageInputFor (payload : CreateStoryPayload) (baseCharacterImageUri : String)
    (page : StoryPage) : GeneratePageIllustrationInput :=
  { baseCharacterDataUri := baseCharacterImageUri
    pageText := page.text
    sceneDescription := page.sceneDescription
    storyTheme := payload.storyTheme
    moralLesson := payload.moralLesson
    additionalDetails := payload.additionalDetails }

/-- Stage 1 of the pipeline (character styling), with the validation performed by
`createStoryAction`: the call may throw; a null result or falsy
`animatedCharacterDataUri` is an error; a present URI lacking the image marker is an
error; otherwise the URI is the styled base character image. -/
def animateStage (env : Env) (input : AnimateCharacterInput) : Except String String :=
  match env.animateCharacter input with
  | .throws msg => .error msg
  | .returns none =>
      .error "Failed to create base character image. The AI flow did not return an image URI."
  | .returns (some out) =>
      match out.animatedCharacterDataUri with
      | none =>
          .error "Failed to create base character image. The AI flow did not return an image URI."
      | some uri =>
          if uri = "" then
            .error "Failed to create base character image. The AI flow did not return an image URI."
          else if isImageDataUri uri = false then
            .error "Base character image URI is not a valid image data URI."
          else
            .ok uri

/-- A story result validated by `createStoryAction`: title, character description
and a non-empty page list, all present. -/
structure ValidStory where
  title : String
  characterDescription : String
  pages : List StoryPage
deriving DecidableEq

/-- Stage 2 of the pipeline (story composition), with the validation performed by
`createStoryAction`: null result, falsy title, falsy characterDescription, absent
pages or zero pages are all the same fatal error. -/
def storyStage (env : Env) (input : GenerateStoryInput) : Except String ValidStory :=
  match env.generateStory input with
  | .throws msg => .error msg
  | .returns none =>
      .error "Failed to generate story content. The AI flow did not return complete story data or pages."
  | .returns (some out) =>
      match out.title, out.characterDescription, out.pages with
      | some t, some d, some ps =>
          if t = "" || d = "" || ps.length = 0 then
            .error "Failed to generate story content. The AI flow did not return complete story data or pages."
          else
            .ok { title := t, characterDescription := d, pages := ps }
      | _, _, _ =>
          .error "Failed to generate story content. The AI flow did not return complete story data or pages."

/-- The asset a cover call actually produced, if any: `none` for a throw, a null
result, an absent/falsy URI or a URI lacking the image marker. -/
def coverAsset : CallResult GenerateCoverImageOutput → Option String
  | .throws _ => none
  | .returns none => none
  | .returns (some out) =>
      match out.coverImageDataUri with
      | none => none
      | some uri => if uri != "" && isImageDataUri uri then some uri else none

/-- Stage 3 (cover generation) as performed by `createStoryAction`: the cover URI
defaults to the styled base character image and is replaced only by a validated
generated asset; throws are absorbed by the inner try/catch. -/
def coverStage (env : Env) (input : GenerateCoverImageInput)
    (baseCharacterImageUri : String) : String :=
  match coverAsset (env.generateCover input) with
  | none => baseCharacterImageUri
  | some uri => uri

/-- The asset a page-illustration call actually produced, if any: `none` for a
throw, a null result, an absent/falsy URI or a URI lacking the image marker. -/
def illustrationAsset : CallResult GeneratePageIllustrationOutput → Option String
  | .throws _ => none
  | .returns none => none
  | .returns (some out) =>
      match out.pageImageDataUri with
      | none => none
      | some uri => if uri != "" && isImageDataUri uri then some uri else none

/-- One iteration of the illustration loop of `createStoryAction`: the page keeps
its text and scene description; the image is the validated generated asset, or the
styled base character image as fallback (both for a throw, absorbed by the inner
try/catch, and for a missing/malformed result). -/
def illustrateOne (env : Env) (baseCharacterImageUri : String)
    (input : GeneratePageIllustrationInput) (page : StoryPage) : StoryPageData :=
  { text := page.text
    sceneDescription := page.sceneDescription
    imageUri :=
      match illustrationAsset (env.generateIllustration input) with
      | none => baseCharacterImageUri
      | some uri => uri }

/-- The illustration loop of `createStoryAction` over the composed pages, also
returning the capability calls it makes, in order. -/
def illustratePages (env : Env) (payload : CreateStoryPayload)
    (baseCharacterImageUri : String) :
    List StoryPage → List StoryPageData × List CallEvent
  | [] => ([], [])
  | page :: rest =>
      let input := pageInputFor payload baseCharacterImageUri page
      let pageData := illustrateOne env baseCharacterImageUri input page
      let restResult := illustratePages env payload baseCharacterImageUri rest
      (pageData :: restResult.1, CallEvent.illustrate input :: restResult.2)

/-- The body of `createStoryAction`'s try block: raw error messages (as thrown)
or the assembled `StoryData`, together with the capability-call trace. -/
def createStoryCore (env : Env) (payload : CreateStoryPayload) :
    Except String StoryData × List CallEvent :=
  if isImageDataUri payload.characterImageDataUri = false then
    (.error "Invalid character image data URI format (original upload).", [])
  else
    match animateStage env (animInputFor payload) with
    | .error msg => (.error msg, [CallEvent.animate (animInputFor payload)])
    | .ok baseCharacterImageUri =>
      match storyStage env (storyInputFor payload baseCharacterImageUri) with
      | .error msg =>
          (.error msg,
           [CallEvent.animate (animInputFor payload),
            CallEvent.story (storyInputFor payload baseCharacterImageUri)])
      | .ok story =>
        let coverInput := coverInputFor payload baseCharacterImageUri story.title
        let coverImageUri := coverStage env coverInput baseCharacterImageUri
        let illustrated := illustratePages env payload baseCharacterImageUri story.pages
        let trace :=
          CallEvent.animate (animInputFor payload) ::
          CallEvent.story (storyInputFor payload baseCharacterImageUri) ::
          CallEvent.cover coverInput :: illustrated.2
        if illustrated.1.length ≠ story.pages.length then
          (.error "Critical error: Mismatch in page count after illustration generation.", trace)
        else
          (.ok { title := story.title
                 characterDescription := story.characterDescription
                 characterName := payload.characterName
                 originalCharacterUri := baseCharacterImageUri
                 coverImageUri := coverImageUri
                 pages := illustrated.1
                 storyTheme := payload.storyTheme
                 moralLesson := payload.moralLesson
                 additionalDetails := payload.additionalDetails },
           trace)

/-- The catch block of `createStoryAction`: known upstream substrings are
rewritten to user guidance, case-insensitively for the safety flag, and any other
message passes through unchanged. -/
def rewriteCreateError (msg : String) : String :=
  if strIncludes (strToLower msg) "candidate_finish_reason_safety" then
    "The AI model flagged the content for safety reasons. Please try modifying your prompts (theme, moral, details) or uploaded image."
  else if strIncludes msg "upstream" || strIncludes msg "generation failed" then
    "There was an issue with the AI image generation service. Please try again later or with a different image/prompt."
  else
    msg

/-- The full `createStoryAction`: success with the assembled data, or failure with
the (rewritten) error message; paired with the capability-call trace. -/
def createStoryAction (env : Env) (payload : CreateStoryPayload) :
    CreateStoryResponse × List CallEvent :=
  match createStoryCore env payload with
  | (.ok data, trace) => ({ success := true, data := some data, error := none }, trace)
  | (.error msg, trace) =>
      ({ success := false, data := none, error := some (rewriteCreateError msg) }, trace)

/-- The `RegeneratePageIllustrationResponse` shape. -/
structure RegenerateResponse where
  success : Bool
  newImageUri : Option String
  error : Option String
deriving DecidableEq

/-- The body of `regeneratePageIllustrationAction`'s try block: validates the base
character URI, makes the illustration call, and throws (rather than falling back)
when the call throws or returns a missing/malformed asset. -/
def regenerateCore (env : Env) (payload : GeneratePageIllustrationInput) :
    Except String String :=
  if isImageDataUri payload.baseCharacterDataUri = false then
    .error "Invalid base character image data URI for regeneration."
  else
    match env.generateIllustration payload with
    | .throws msg => .error msg
    | .returns none =>
        .error "Failed to regenerate page illustration or returned invalid data URI."
    | .returns (some out) =>
        match out.pageImageDataUri with
        | none =>
            .error "Failed to regenerate page illustration or returned invalid data URI."
        | some uri =>
            if uri != "" && isImageDataUri uri then .ok uri
            else .error "Failed to regenerate page illustration or returned invalid data URI."

/-- The catch block of `regeneratePageIllustrationAction` (its own guidance texts). -/
def rewriteRegenerateError (msg : String) : String :=
  if strIncludes (strToLower msg) "candidate_finish_reason_safety" then
    "The AI model flagged the content for safety reasons. Please try modifying your text or prompts."
  else if strIncludes msg "upstream" || strIncludes msg "generation failed" then
    "There was an issue with the AI image generation service. Please try again later or with different text."
  else
    msg

/-- The full `regeneratePageIllustrationAction`: an explicit error on any failure,
never a fallback image. -/
def regeneratePageIllustrationAction (env : Env) (payload : GeneratePageIllustrationInput) :
    RegenerateResponse :=
  match regenerateCore env payload with
  | .ok uri => { success := true, newImageUri := some uri, error := none }
  | .error msg =>
      { success := false, newImageUri := none, error := some (rewriteRegenerateError msg) }

/-- The marker clause inserted by `handleRegenerateIllustration` between general
story details and page-specific details. -/
def sceneDetailMarker : String :=
  "\nFor this specific scene, also consider these visual details: "

/-- The `combinedAdditionalDetails` computation of `handleRegenerateIllustration`:
general details (or empty), with trimmed page-specific details appended after the
marker clause when they are non-blank. -/
def combinedAdditionalDetails (additionalDetails : Option String)
    (pageSpecificDetails : String) : String :=
  let general := jsOrEmpty additionalDetails
  if jsTrim pageSpecificDetails != "" then
    general ++ sceneDetailMarker ++ jsTrim pageSpecificDetails
  else
    general

/-- The `additionalDetails` field of the regeneration payload built by
`handleRegenerateIllustration`: the combined details, trimmed, or absent if blank. -/
def mergedDetailsField (additionalDetails : Option String)
    (pageSpecificDetails : String) : Option String :=
  let combined := jsTrim (combinedAdditionalDetails additionalDetails pageSpecificDetails)
  if combined = "" then none else some combined

/-- The full regeneration payload built by `handleRegenerateIllustration` before
calling `regeneratePageIllustrationAction`. -/
def regenerationPayloadFor (originalCharacterUri editablePageText sceneDescription
    storyTheme moralLesson : String) (additionalDetails : Option String)
    (pageSpecificDetails : String) : GeneratePageIllustrationInput :=
  { baseCharacterDataUri := originalCharacterUri
    pageText := editablePageText
    sceneDescription := sceneDescription
    storyTheme := storyTheme
    moralLesson := moralLesson
    additionalDetails := mergedDetailsField additionalDetails pageSpecificDetails }

/-! ### Concrete fixtures used to instantiate the theorems -/

/-- A valid uploaded photo data URI. -/
def wUpload : String := "data:image/png;base64,UPLOAD"

/-- A valid styled base character data URI. -/
def wBase : String := "data:image/png;base64,BASE"

/-- A valid generated cover data URI. -/
def wCover : String := "data:image/png;base64,COVER"

/-- A valid generated page-illustration data URI. -/
def wIll : String := "data:image/png;base64,ILL"

/-- Two composed pages. -/
def wPages : List StoryPage := [⟨"Page one text", "s1"⟩, ⟨"Page two text", "s2"⟩]

/-- A well-formed payload. -/
def wPayload : CreateStoryPayload :=
  { characterImageDataUri := wUpload, characterName := "Mia", storyTheme := "adventure"
    moralLesson := "kindness", additionalDetails := none }

/-- A payload whose photo lacks the image-data marker. -/
def wPayloadBad : CreateStoryPayload :=
  { characterImageDataUri := "notanimage", characterName := "Mia", storyTheme := "adventure"
    moralLesson := "kindness", additionalDetails := none }

/-- The validated story the good environment composes. -/
def wStory : ValidStory :=
  { title := "The Tale", characterDescription := "A brave child", pages := wPages }

/-- An environment where every capability succeeds with a valid asset. -/
def wEnvGood : Env :=
  { animateCharacter := fun _ => .returns (some ⟨some wBase⟩)
    generateStory := fun _ =>
      .returns (some ⟨some "The Tale", some "A brave child", some wPages⟩)
    generateCover := fun _ => .returns (some ⟨some wCover⟩)
    generateIllustration := fun _ => .returns (some ⟨some wIll⟩) }

/-- Like `wEnvGood`, but the illustration call for the first page throws. -/
def wEnvPage0Fails : Env :=
  { wEnvGood with
    generateIllustration := fun input =>
      if input.sceneDescription = "s1" then .throws "scene one failed"
      else .returns (some ⟨some wIll⟩) }

/-- Like `wEnvGood`, but the cover call throws. -/
def wEnvCoverFails : Env :=
  { wEnvGood with generateCover := fun _ => .throws "cover boom" }

/-- Like `wEnvGood`, but the character-styling call throws. -/
def wEnvAnimThrows : Env :=
  { wEnvGood with animateCharacter := fun _ => .throws "anim boom" }

/-- Like `wEnvGood`, but every illustration call throws. -/
def wEnvIllThrows : Env :=
  { wEnvGood with generateIllustration := fun _ => .throws "ill boom" }

/-- A well-formed standalone-regeneration payload. -/
def wRegenPayload : GeneratePageIllustrationInput :=
  { baseCharacterDataUri := wBase, pageText := "text", sceneDescription := "scene"
    storyTheme := "adventure", moralLesson := "kindness", additionalDetails := none }

/-! ### Helper lemmas about the pipeline -/

theorem illustrateOne_imageUri (env : Env) (base : String)
    (input : GeneratePageIllustrationInput) (page : StoryPage) :
    (illustrateOne env base input page).imageUri =
      (illustrationAsset (env.generateIllustration input)).getD base := by
  unfold illustrateOne
  cases illustrationAsset (env.generateIllustration input) <;> rfl

theorem illustratePages_fst (env : Env) (payload : CreateStoryPayload) (base : String) :
    ∀ ps : List StoryPage,
      (illustratePages env payload base ps).1 =
        ps.map (fun p => illustrateOne env base (pageInputFor payload base p) p) := by
  intro ps
  induction ps with
  | nil => rfl
  | cons p rest ih => simp [illustratePages, ih]

theorem illustratePages_length (env : Env) (payload : CreateStoryPayload) (base : String)
    (ps : List StoryPage) :
    (illustratePages env payload base ps).1.length = ps.length := by
  rw [illustratePages_fst]
  simp

theorem animateStage_ok_marker (env : Env) (input : AnimateCharacterInput) (base : String)
    (h : animateStage env input = .ok base) : isImageDataUri base = true := by
  cases hc : env.animateCharacter input with
  | throws msg => simp [animateStage, hc] at h
  | returns val =>
    cases val with
    | none => simp [animateStage, hc] at h
    | some out =>
      cases hu : out.animatedCharacterDataUri with
      | none => simp [animateStage, hc, hu] at h
      | some uri =>
        by_cases h1 : uri = ""
        · simp [animateStage, hc, hu, h1] at h
        · cases hb : isImageDataUri uri with
          | false => simp [animateStage, hc, hu, h1, hb] at h
          | true =>
            simp [animateStage, hc, hu, h1, hb] at h
            rw [← h]
            exact hb

theorem coverAsset_some_marker (r : CallResult GenerateCoverImageOutput) (uri : String)
    (h : coverAsset r = some uri) : isImageDataUri uri = true := by
  cases r with
  | throws msg => simp [coverAsset] at h
  | returns val =>
    cases val with
    | none => simp [coverAsset] at h
    | some out =>
      cases hu : out.coverImageDataUri with
      | none => simp [coverAsset, hu] at h
      | some u =>
        by_cases hc : (u != "" && isImageDataUri u) = true
        · have := hc
          simp only [coverAsset, hu, if_pos hc] at h
          cases h
          exact (Bool.and_eq_true_iff.mp this).2
        · simp only [coverAsset, hu, if_neg hc] at h
          simp at h

theorem illustrationAsset_some_marker (r : CallResult GeneratePageIllustrationOutput)
    (uri : String) (h : illustrationAsset r = some uri) : isImageDataUri uri = true := by
  cases r with
  | throws msg => simp [illustrationAsset] at h
  | returns val =>
    cases val with
    | none => simp [illustrationAsset] at h
    | some out =>
      cases hu : out.pageImageDataUri with
      | none => simp [illustrationAsset, hu] at h
      | some u =>
        by_cases hc : (u != "" && isImageDataUri u) = true
        · have := hc
          simp only [illustrationAsset, hu, if_pos hc] at h
          cases h
          exact (Bool.and_eq_true_iff.mp this).2
        · simp only [illustrationAsset, hu, if_neg hc] at h
          simp at h

theorem coverStage_marker (env : Env) (input : GenerateCoverImageInput) (base : String)
    (hbase : isImageDataUri base = true) :
    isImageDataUri (coverStage env input base) = true := by
  unfold coverStage
  cases hc : coverAsset (env.generateCover input) with
  | none => exact hbase
  | some uri => exact coverAsset_some_marker _ _ hc

theorem createStoryCore_invalid (env : Env) (payload : CreateStoryPayload)
    (h : isImageDataUri payload.characterImageDataUri = false) :
    createStoryCore env payload =
      (.error "Invalid character image data URI format (original upload).", []) := by
  unfold createStoryCore
  rw [h]
  rfl

theorem createStoryCore_animError (env : Env) (payload : CreateStoryPayload) (msg : String)
    (h1 : isImageDataUri payload.characterImageDataUri = true)
    (h2 : animateStage env (animInputFor payload) = .error msg) :
    createStoryCore env payload = (.error msg, [CallEvent.animate (animInputFor payload)]) := by
  simp [createStoryCore, h1, h2]

theorem createStoryCore_storyError (env : Env) (payload : CreateStoryPayload)
    (base msg : String)
    (h1 : isImageDataUri payload.characterImageDataUri = true)
    (h2 : animateStage env (animInputFor payload) = .ok base)
    (h3 : storyStage env (storyInputFor payload base) = .error msg) :
    createStoryCore env payload =
      (.error msg,
       [CallEvent.animate (animInputFor payload),
        CallEvent.story (storyInputFor payload base)]) := by
  simp [createStoryCore, h1, h2, h3]

theorem createStoryCore_success (env : Env) (payload : CreateStoryPayload)
    (base : String) (story : ValidStory)
    (h1 : isImageDataUri payload.characterImageDataUri = true)
    (h2 : animateStage env (animInputFor payload) = .ok base)
    (h3 : storyStage env (storyInputFor payload base) = .ok story) :
    createStoryCore env payload =
      (.ok { title := story.title
             characterDescription := story.characterDescription
             characterName := payload.characterName
             originalCharacterUri := base
             coverImageUri := coverStage env (coverInputFor payload base story.title) base
             pages := (illustratePages env payload base story.pages).1
             storyTheme := payload.storyTheme
             moralLesson := payload.moralLesson
             additionalDetails := payload.additionalDetails },
       CallEvent.animate (animInputFor payload) ::
       CallEvent.story (storyInputFor payload base) ::
       CallEvent.cover (coverInputFor payload base story.title) ::
       (illustratePages env payload base story.pages).2) := by
  simp [createStoryCore, h1, h2, h3, illustratePages_length]

theorem createStoryAction_of_core_ok (env : Env) (payload : CreateStoryPayload)
    (d : StoryData) (t : List CallEvent)
    (h : createStoryCore env payload = (.ok d, t)) :
    createStoryAction env payload =
      ({ success := true, data := some d, error := none }, t) := by
  unfold createStoryAction
  rw [h]

theorem createStoryAction_of_core_error (env : Env) (payload : CreateStoryPayload)
    (msg : String) (t : List CallEvent)
    (h : createStoryCore env payload = (.error msg, t)) :
    createStoryAction env payload =
      ({ success := false, data := none, error := some (rewriteCreateError msg) }, t) := by
  unfold createStoryAction
  rw [h]

theorem illustratePages_get (env : Env) (payload : CreateStoryPayload) (base : String) :
    ∀ (ps : List StoryPage) (k : Nat)
      (hk : k < (illustratePages env payload base ps).1.length) (hk2 : k < ps.length),
      (illustratePages env payload base ps).1.get ⟨k, hk⟩ =
        illustrateOne env base (pageInputFor payload base (ps.get ⟨k, hk2⟩)) (ps.get ⟨k, hk2⟩)
  | [], k, hk, hk2 => by simp [illustratePages] at hk
  | p :: rest, 0, hk, hk2 => rfl
  | p :: rest, Nat.succ k, hk, hk2 => by
      have hk0 : k < (illustratePages env payload base rest).1.length := by
        rw [illustratePages_length] at hk ⊢
        exact Nat.lt_of_succ_lt_succ hk
      exact illustratePages_get env payload base rest k hk0 (Nat.lt_of_succ_lt_succ hk2)

/-! ### Helper lemmas about JavaScript-style trimming -/

theorem dropWhile_eq_self_parts (l : List Char) (h : trimChars l = l) :
    l.dropWhile Char.isWhitespace = l ∧
    l.reverse.dropWhile Char.isWhitespace = l.reverse := by
  have s1 : (l.dropWhile Char.isWhitespace) <:+ l := List.dropWhile_suffix _
  have hlen := congrArg List.length h
  unfold trimChars at hlen
  rw [List.length_reverse] at hlen
  have s2 : ((l.dropWhile Char.isWhitespace).reverse.dropWhile Char.isWhitespace) <:+
      (l.dropWhile Char.isWhitespace).reverse := List.dropWhile_suffix _
  have le2 := s2.length_le
  rw [List.length_reverse] at le2
  have le1 := s1.length_le
  have h1 : (l.dropWhile Char.isWhitespace).length = l.length := by omega
  have e1 : l.dropWhile Char.isWhitespace = l := s1.eq_of_length h1
  refine ⟨e1, ?_⟩
  rw [e1] at hlen
  exact (List.dropWhile_suffix _).eq_of_length (by rw [List.length_reverse]; exact hlen)

theorem head_not_whitespace (c : Char) (t : List Char)
    (h : (c :: t).dropWhile Char.isWhitespace = c :: t) :
    Char.isWhitespace c = false := by
  cases hb : Char.isWhitespace c with
  | false => rfl
  | true =>
    rw [List.dropWhile_cons_of_pos hb] at h
    have hle := (List.dropWhile_suffix (l := t) Char.isWhitespace).length_le
    have hlen := congrArg List.length h
    simp at hlen
    omega

theorem dropWhile_eq_self_append (l m : List Char)
    (h : l.dropWhile Char.isWhitespace = l) (hne : l ≠ []) :
    (l ++ m).dropWhile Char.isWhitespace = l ++ m := by
  obtain ⟨a, ta, rfl⟩ := List.exists_cons_of_ne_nil hne
  have ha := head_not_whitespace a ta h
  rw [List.cons_append]
  exact List.dropWhile_cons_of_neg (by simp [ha])

theorem ne_empty_data (s : String) (h : s ≠ "") : s.data ≠ [] := by
  intro hd
  apply h
  cases s with
  | mk d =>
    cases hd
    rfl

theorem jsTrim_append_marker (A B : String)
    (hA : jsTrim A = A) (hA0 : A ≠ "") (hB : jsTrim B = B) (hB0 : B ≠ "") :
    jsTrim (A ++ sceneDetailMarker ++ B) = A ++ sceneDetailMarker ++ B := by
  have hAd : trimChars A.data = A.data := congrArg String.data hA
  have hBd : trimChars B.data = B.data := congrArg String.data hB
  obtain ⟨hAdrop, -⟩ := dropWhile_eq_self_parts A.data hAd
  obtain ⟨-, hBrev⟩ := dropWhile_eq_self_parts B.data hBd
  have hAne : A.data ≠ [] := ne_empty_data A hA0
  have hBne : B.data ≠ [] := ne_empty_data B hB0
  have hBrne : B.data.reverse ≠ [] := by simpa using hBne
  have hsplit : (A ++ sceneDetailMarker ++ B).data =
      (A.data ++ sceneDetailMarker.data) ++ B.data := by
    simp
  have step1 : (A ++ sceneDetailMarker ++ B).data.dropWhile Char.isWhitespace =
      (A ++ sceneDetailMarker ++ B).data := by
    rw [hsplit, List.append_assoc]
    exact dropWhile_eq_self_append A.data _ hAdrop hAne
  have step2 : (A ++ sceneDetailMarker ++ B).data.reverse.dropWhile Char.isWhitespace =
      (A ++ sceneDetailMarker ++ B).data.reverse := by
    rw [hsplit, List.reverse_append]
    exact dropWhile_eq_self_append B.data.reverse _ hBrev hBrne
  show String.mk (trimChars (A ++ sceneDetailMarker ++ B).data) = A ++ sceneDetailMarker ++ B
  unfold trimChars
  rw [step1, step2, List.reverse_reverse]

theorem append_marker_ne_empty (A B : String) : A ++ sceneDetailMarker ++ B ≠ "" := by
  intro h
  have hd := congrArg (fun s : String => s.data.length) h
  simp only [String.data_append, List.length_append] at hd
  have hm : 0 < sceneDetailMarker.data.length := by decide
  have h0 : ("" : String).data.length = 0 := rfl
  rw [h0] at hd
  omega

theorem regenerateCore_error_of_asset_none (env : Env)
    (payload : GeneratePageIllustrationInput)
    (h : illustrationAsset (env.generateIllustration payload) = none) :
    ∃ msg, regenerateCore env payload = .error msg := by
  cases hval : isImageDataUri payload.baseCharacterDataUri with
  | false =>
    exact ⟨"Invalid base character image data URI for regeneration.",
      by simp [regenerateCore, hval]⟩
  | true =>
    cases hc : env.generateIllustration payload with
    | throws msg => exact ⟨msg, by simp [regenerateCore, hval, hc]⟩
    | returns val =>
      cases val with
      | none =>
        exact ⟨"Failed to regenerate page illustration or returned invalid data URI.",
          by simp [regenerateCore, hval, hc]⟩
      | some out =>
        cases hu : out.pageImageDataUri with
        | none =>
          exact ⟨"Failed to regenerate page illustration or returned invalid data URI.",
            by simp [regenerateCore, hval, hc, hu]⟩
        | some uri =>
          have hcond : (uri != "" && isImageDataUri uri) = false := by
            cases hb : (uri != "" && isImageDataUri uri) with
            | false => rfl
            | true => simp [illustrationAsset, hc, hu, hb] at h
          exact ⟨"Failed to regenerate page illustration or returned invalid data URI.",
            by simp [regenerateCore, hval, hc, hu, hcond]⟩

/-! ### The claims -/

/-- C2: if the cover-generation stage fails in any way (the call throws, returns no
asset, or returns an asset without the image-data marker — all the cases in which
`coverAsset` is `none`), `createStoryAction` substitutes the styled character asset
as the cover, so the returned data satisfies `coverImageUri = originalCharacterUri`,
and the pipeline still returns a success result. -/
theorem claim2_cover_fallback (env : Env) (payload : CreateStoryPayload)
    (base : String) (story : ValidStory)
    (h1 : isImageDataUri payload.characterImageDataUri = true)
    (h2 : animateStage env (animInputFor payload) = .ok base)
    (h3 : storyStage env (storyInputFor payload base) = .ok story)
    (hcover : coverAsset (env.generateCover (coverInputFor payload base story.title)) = none) :
    ∃ d : StoryData,
      (createStoryAction env payload).1 =
        { success := true, data := some d, error := none } ∧
      d.coverImageUri = d.originalCharacterUri ∧
      d.originalCharacterUri = base := by
  have hcore := createStoryCore_success env payload base story h1 h2 h3
  have hact := createStoryAction_of_core_ok env payload _ _ hcore
  refine ⟨{ title := story.title, characterDescription := story.characterDescription,
            characterName := payload.characterName, originalCharacterUri := base,
            coverImageUri := coverStage env (coverInputFor payload base story.title) base,
            pages := (illustratePages env payload base story.pages).1,
            storyTheme := payload.storyTheme, moralLesson := payload.moralLesson,
            additionalDetails := payload.additionalDetails }, ?_, ?_, rfl⟩
  · rw [hact]
  · show coverStage env (coverInputFor payload base story.title) base = base
    unfold coverStage
    rw [hcover]

/-- Witness for C2: in an environment whose cover call throws, the action succeeds
and the cover equals the styled character asset. -/
theorem claim2_witness :
    ∃ d : StoryData,
      (createStoryAction wEnvCoverFails wPayload).1 =
        { success := true, data := some d, error := none } ∧
      d.coverImageUri = d.originalCharacterUri ∧
      d.originalCharacterUri = wBase :=
  claim2_cover_fallback wEnvCoverFails wPayload wBase wStory
    (by decide) (by decide) (by decide) (by decide)

/-- C3: every run of `createStoryAction` returns either a success response whose
data is a full `StoryData` with no error and with as many pages as the
story-composition stage produced, or a failure response with no data and an error
message — never a partial result. -/
theorem claim3_success_or_error (env : Env) (payload : CreateStoryPayload) :
    (∃ (d : StoryData) (base : String) (story : ValidStory),
      (createStoryAction env payload).1 =
        { success := true, data := some d, error := none } ∧
      animateStage env (animInputFor payload) = .ok base ∧
      storyStage env (storyInputFor payload base) = .ok story ∧
      d.pages.length = story.pages.length) ∨
    (∃ msg,
      (createStoryAction env payload).1 =
        { success := false, data := none, error := some msg }) := by
  cases hval : isImageDataUri payload.characterImageDataUri with
  | false =>
    right
    exact ⟨_, by
      rw [createStoryAction_of_core_error env payload _ _ (createStoryCore_invalid env payload hval)]⟩
  | true =>
    cases h2 : animateStage env (animInputFor payload) with
    | error msg =>
      right
      exact ⟨_, by
        rw [createStoryAction_of_core_error env payload _ _
          (createStoryCore_animError env payload msg hval h2)]⟩
    | ok base =>
      cases h3 : storyStage env (storyInputFor payload base) with
      | error msg =>
        right
        exact ⟨_, by
          rw [createStoryAction_of_core_error env payload _ _
            (createStoryCore_storyError env payload base msg hval h2 h3)]⟩
      | ok story =>
        left
        refine ⟨{ title := story.title, characterDescription := story.characterDescription,
                  characterName := payload.characterName, originalCharacterUri := base,
                  coverImageUri :=
                    coverStage env (coverInputFor payload base story.title) base,
                  pages := (illustratePages env payload base story.pages).1,
                  storyTheme := payload.storyTheme, moralLesson := payload.moralLesson,
                  additionalDetails := payload.additionalDetails },
                base, story, ?_, rfl, h3, ?_⟩
        · rw [createStoryAction_of_core_ok env payload _ _
            (createStoryCore_success env payload base story hval h2 h3)]
        · exact illustratePages_length env payload base story.pages

/-- C4: when the photo data URI lacks the image-data marker, `createStoryAction`
returns the invalid-input failure at once, and its capability-call trace is empty:
no styling, story, cover or illustration call is made. -/
theorem claim4_invalid_input_no_calls (env : Env) (payload : CreateStoryPayload)
    (h : isImageDataUri payload.characterImageDataUri = false) :
    createStoryAction env payload =
      ({ success := false, data := none,
         error := some "Invalid character image data URI format (original upload)." }, []) := by
  rw [createStoryAction_of_core_error env payload _ _ (createStoryCore_invalid env payload h)]
  have hr : rewriteCreateError "Invalid character image data URI format (original upload)." =
      "Invalid character image data URI format (original upload)." := by decide
  rw [hr]

/-- Witness for C4 at a concrete malformed payload. -/
theorem claim4_witness :
    createStoryAction wEnvGood wPayloadBad =
      ({ success := false, data := none,
         error := some "Invalid character image data URI format (original upload)." }, []) :=
  claim4_invalid_input_no_calls wEnvGood wPayloadBad (by decide)

/-- C5: a fatal-stage failure aborts the pipeline with no downstream calls. If the
character-styling stage fails in any way (`animateStage` errors: the call threw,
returned no asset, or returned a malformed asset), the action fails and the trace
contains only the styling call — no story, cover or illustration call. If styling
succeeded but the story-composition stage fails in any way (`storyStage` errors:
the call threw, or title/characterDescription/pages missing or pages empty), the
action fails and the trace contains only the styling and story calls — no cover or
illustration call. In neither case is any fallback substituted. -/
theorem claim5_fatal_stage_aborts (env : Env) (payload : CreateStoryPayload)
    (h1 : isImageDataUri payload.characterImageDataUri = true) :
    (∀ msg, animateStage env (animInputFor payload) = .error msg →
      (createStoryAction env payload).1.success = false ∧
      (createStoryAction env payload).1.data = none ∧
      (createStoryAction env payload).2 = [CallEvent.animate (animInputFor payload)]) ∧
    (∀ base msg, animateStage env (animInputFor payload) = .ok base →
      storyStage env (storyInputFor payload base) = .error msg →
      (createStoryAction env payload).1.success = false ∧
      (createStoryAction env payload).1.data = none ∧
      (createStoryAction env payload).2 =
        [CallEvent.animate (animInputFor payload),
         CallEvent.story (storyInputFor payload base)]) := by
  constructor
  · intro msg h2
    rw [createStoryAction_of_core_error env payload _ _
      (createStoryCore_animError env payload msg h1 h2)]
    exact ⟨rfl, rfl, rfl⟩
  · intro base msg h2 h3
    rw [createStoryAction_of_core_error env payload _ _
      (createStoryCore_storyError env payload base msg h1 h2 h3)]
    exact ⟨rfl, rfl, rfl⟩

/-- Witness for C5: with a styler that throws, the action fails and only the
styling call was made. -/
theorem claim5_witness :
    (createStoryAction wEnvAnimThrows wPayload).1.success = false ∧
    (createStoryAction wEnvAnimThrows wPayload).1.data = none ∧
    (createStoryAction wEnvAnimThrows wPayload).2 =
      [CallEvent.animate (animInputFor wPayload)] :=
  (claim5_fatal_stage_aborts wEnvAnimThrows wPayload (by decide)).1 "anim boom" (by decide)

/-- C8: once the character-styling stage has produced the styled asset `base`, the
story-composition call recorded in the trace carries `base` as its
`characterImage` grounding — not the user's uploaded photo. -/
theorem claim8_story_grounded_on_styled (env : Env) (payload : CreateStoryPayload)
    (base : String)
    (h1 : isImageDataUri payload.characterImageDataUri = true)
    (h2 : animateStage env (animInputFor payload) = .ok base) :
    ∃ rest, (createStoryAction env payload).2 =
      CallEvent.animate (animInputFor payload) ::
      CallEvent.story
        { characterImage := base
          characterName := payload.characterName
          storyTheme := payload.storyTheme
          moralLesson := payload.moralLesson
          additionalDetails := jsOrEmpty payload.additionalDetails } :: rest := by
  cases h3 : storyStage env (storyInputFor payload base) with
  | error msg =>
    refine ⟨[], ?_⟩
    rw [createStoryAction_of_core_error env payload _ _
      (createStoryCore_storyError env payload base msg h1 h2 h3)]
    rfl
  | ok story =>
    refine ⟨CallEvent.cover (coverInputFor payload base story.title) ::
      (illustratePages env payload base story.pages).2, ?_⟩
    rw [createStoryAction_of_core_ok env payload _ _
      (createStoryCore_success env payload base story h1 h2 h3)]
    rfl

/-- Witness for C8: in the good environment the second trace entry is the story
call grounded on the styled base asset. -/
theorem claim8_witness :
    ∃ rest, (createStoryAction wEnvGood wPayload).2 =
      CallEvent.animate (animInputFor wPayload) ::
      CallEvent.story
        { characterImage := wBase
          characterName := wPayload.characterName
          storyTheme := wPayload.storyTheme
          moralLesson := wPayload.moralLesson
          additionalDetails := jsOrEmpty wPayload.additionalDetails } :: rest :=
  claim8_story_grounded_on_styled wEnvGood wPayload wBase (by decide) (by decide)

/-- C10: a fatal error message `msg` raised inside the pipeline is returned
rewritten by substring matching: the safety guidance text if the lower-cased
message contains the safety-flag indicator, otherwise the service-issue guidance
text if the message contains "upstream" or "generation failed", and otherwise the
raw message unchanged. -/
theorem claim10_error_rewrite (env : Env) (payload : CreateStoryPayload) (msg : String)
    (h : (createStoryCore env payload).1 = .error msg) :
    (createStoryAction env payload).1 =
      { success := false, data := none,
        error := some (
          if strIncludes (strToLower msg) "candidate_finish_reason_safety" then
            "The AI model flagged the content for safety reasons. Please try modifying your prompts (theme, moral, details) or uploaded image."
          else if strIncludes msg "upstream" || strIncludes msg "generation failed" then
            "There was an issue with the AI image generation service. Please try again later or with a different image/prompt."
          else msg) } := by
  cases hp : createStoryCore env payload with
  | mk r t =>
    rw [hp] at h
    simp only at h
    subst h
    rw [createStoryAction_of_core_error env payload msg t hp]
    rfl

/-- C1: in the full pipeline, if the illustration call for composed page `i` fails
(throws, or returns a missing/malformed asset — `illustrationAsset` is `none`)
while the call for every other page produces a validated asset, then the action
still succeeds, the assembled page count equals the composed page count, page `i`
carries the styled character asset as its image, and every other page carries the
asset its own call produced. -/
theorem claim1_per_page_fallback (env : Env) (payload : CreateStoryPayload)
    (base : String) (story : ValidStory) (assets : Nat → String) (i : Nat)
    (hi : i < story.pages.length)
    (h1 : isImageDataUri payload.characterImageDataUri = true)
    (h2 : animateStage env (animInputFor payload) = .ok base)
    (h3 : storyStage env (storyInputFor payload base) = .ok story)
    (hfail : illustrationAsset (env.generateIllustration
      (pageInputFor payload base (story.pages.get ⟨i, hi⟩))) = none)
    (hok : ∀ j (hj : j < story.pages.length), j ≠ i →
      illustrationAsset (env.generateIllustration
        (pageInputFor payload base (story.pages.get ⟨j, hj⟩))) = some (assets j)) :
    ∃ d : StoryData,
      (createStoryAction env payload).1 =
        { success := true, data := some d, error := none } ∧
      d.pages.length = story.pages.length ∧
      d.originalCharacterUri = base ∧
      (∀ hi2 : i < d.pages.length, (d.pages.get ⟨i, hi2⟩).imageUri = base) ∧
      (∀ j (hj2 : j < d.pages.length), j ≠ i →
        (d.pages.get ⟨j, hj2⟩).imageUri = assets j) := by
  have hact := createStoryAction_of_core_ok env payload _ _
    (createStoryCore_success env payload base story h1 h2 h3)
  refine ⟨{ title := story.title, characterDescription := story.characterDescription,
            characterName := payload.characterName, originalCharacterUri := base,
            coverImageUri := coverStage env (coverInputFor payload base story.title) base,
            pages := (illustratePages env payload base story.pages).1,
            storyTheme := payload.storyTheme, moralLesson := payload.moralLesson,
            additionalDetails := payload.additionalDetails },
          ?_, illustratePages_length env payload base story.pages, rfl, ?_, ?_⟩
  · rw [hact]
  · intro hi2
    rw [illustratePages_get env payload base story.pages i hi2 hi,
      illustrateOne_imageUri, hfail]
    rfl
  · intro j hj2 hne
    have hj : j < story.pages.length := by
      rw [← illustratePages_length env payload base story.pages]
      exact hj2
    rw [illustratePages_get env payload base story.pages j hj2 hj,
      illustrateOne_imageUri, hok j hj hne]
    rfl

/-- Witness for C1: the first page's illustration call throws, the second
succeeds; the action succeeds with the styled asset on page one and the generated
asset on page two. -/
theorem claim1_witness :
    ∃ d : StoryData,
      (createStoryAction wEnvPage0Fails wPayload).1 =
        { success := true, data := some d, error := none } ∧
      d.pages.length = wStory.pages.length ∧
      d.originalCharacterUri = wBase ∧
      (∀ hi2 : 0 < d.pages.length, (d.pages.get ⟨0, hi2⟩).imageUri = wBase) ∧
      (∀ j (hj2 : j < d.pages.length), j ≠ 0 →
        (d.pages.get ⟨j, hj2⟩).imageUri = wIll) :=
  claim1_per_page_fallback wEnvPage0Fails wPayload wBase wStory (fun _ => wIll) 0
    (by decide) (by decide) (by decide) (by decide) (by decide)
    (by
      intro j hj hne
      match j, hj with
      | 0, _ => exact absurd rfl hne
      | 1, _ =>
        exact (by decide :
          illustrationAsset (wEnvPage0Fails.generateIllustration
            (pageInputFor wPayload wBase (wStory.pages.get ⟨1, by decide⟩))) = some wIll)
      | Nat.succ (Nat.succ n), hj =>
        exact absurd hj (by simp [wStory, wPages]))

/-- C6: when general story details `A` are present (and trim-stable and
non-empty) and non-blank page-specific details `B` are supplied, the details
string placed into the regeneration payload is exactly `A`, then the marker
clause, then `B`: `A` comes before `B`, `B` follows the marker clause, and
neither is dropped or replaced. -/
theorem claim6_prompt_merge_law (uri txt scene theme moral A B : String)
    (hA : jsTrim A = A) (hA0 : A ≠ "") (hB : jsTrim B = B) (hB0 : B ≠ "") :
    (regenerationPayloadFor uri txt scene theme moral (some A) B).additionalDetails =
      some (A ++ sceneDetailMarker ++ B) := by
  show mergedDetailsField (some A) B = some (A ++ sceneDetailMarker ++ B)
  unfold mergedDetailsField combinedAdditionalDetails jsOrEmpty
  rw [hB]
  rw [if_pos (bne_iff_ne.mpr hB0)]
  rw [jsTrim_append_marker A B hA hA0 hB hB0]
  rw [if_neg (append_marker_ne_empty A B)]

/-- Witness for C6 at concrete detail strings. -/
theorem claim6_witness :
    (regenerationPayloadFor wBase "text" "scene" "adventure" "kindness"
        (some "A") "B").additionalDetails =
      some ("A" ++ sceneDetailMarker ++ "B") :=
  claim6_prompt_merge_law wBase "text" "scene" "adventure" "kindness" "A" "B"
    (by decide) (by decide) (by decide) (by decide)

/-- C7: the standalone regeneration action surfaces failure instead of
substituting a fallback: whenever the underlying illustration call fails (throws,
or returns a missing/malformed asset — `illustrationAsset` is `none`), the action
returns failure with an error message and no image URI. -/
theorem claim7_regen_surfaces_failure (env : Env) (payload : GeneratePageIllustrationInput)
    (h : illustrationAsset (env.generateIllustration payload) = none) :
    (regeneratePageIllustrationAction env payload).success = false ∧
    (regeneratePageIllustrationAction env payload).newImageUri = none ∧
    ∃ msg, (regeneratePageIllustrationAction env payload).error = some msg := by
  obtain ⟨msg, hcore⟩ := regenerateCore_error_of_asset_none env payload h
  unfold regeneratePageIllustrationAction
  rw [hcore]
  exact ⟨rfl, rfl, rewriteRegenerateError msg, rfl⟩

/-- Witness for C7: a throwing illustration capability yields a failure response
with no image. -/
theorem claim7_witness :
    (regeneratePageIllustrationAction wEnvIllThrows wRegenPayload).success = false ∧
    (regeneratePageIllustrationAction wEnvIllThrows wRegenPayload).newImageUri = none ∧
    ∃ msg, (regeneratePageIllustrationAction wEnvIllThrows wRegenPayload).error = some msg :=
  claim7_regen_surfaces_failure wEnvIllThrows wRegenPayload (by decide)

/-- C9: whenever `createStoryAction` succeeds, every asset URI in the returned
data — the styled character, the cover, and every page image — starts with the
image-data marker. -/
theorem claim9_asset_invariant (env : Env) (payload : CreateStoryPayload)
    (h : (createStoryAction env payload).1.success = true) :
    ∃ d : StoryData,
      (createStoryAction env payload).1.data = some d ∧
      isImageDataUri d.originalCharacterUri = true ∧
      isImageDataUri d.coverImageUri = true ∧
      ∀ p ∈ d.pages, isImageDataUri p.imageUri = true := by
  cases hval : isImageDataUri payload.characterImageDataUri with
  | false =>
    rw [createStoryAction_of_core_error env payload _ _
      (createStoryCore_invalid env payload hval)] at h
    simp at h
  | true =>
    cases h2 : animateStage env (animInputFor payload) with
    | error msg =>
      rw [createStoryAction_of_core_error env payload _ _
        (createStoryCore_animError env payload msg hval h2)] at h
      simp at h
    | ok base =>
      cases h3 : storyStage env (storyInputFor payload base) with
      | error msg =>
        rw [createStoryAction_of_core_error env payload _ _
          (createStoryCore_storyError env payload base msg hval h2 h3)] at h
        simp at h
      | ok story =>
        rw [createStoryAction_of_core_ok env payload _ _
          (createStoryCore_success env payload base story hval h2 h3)]
        have hbase : isImageDataUri base = true := animateStage_ok_marker env _ base h2
        refine ⟨_, rfl, hbase, coverStage_marker env _ base hbase, ?_⟩
        intro p hp
        rw [illustratePages_fst] at hp
        obtain ⟨q, hq, rfl⟩ := List.mem_map.mp hp
        rw [illustrateOne_imageUri]
        cases hasset : illustrationAsset
            (env.generateIllustration (pageInputFor payload base q)) with
        | none => simpa using hbase
        | some uri => simpa using illustrationAsset_some_marker _ uri hasset

/-- Witness for C9: the successful good-environment run has only marker-carrying
asset URIs. -/
theorem claim9_witness :
    ∃ d : StoryData,
      (createStoryAction wEnvGood wPayload).1.data = some d ∧
      isImageDataUri d.originalCharacterUri = true ∧
      isImageDataUri d.coverImageUri = true ∧
      ∀ p ∈ d.pages, isImageDataUri p.imageUri = true :=
  claim9_asset_invariant wEnvGood wPayload (by decide)

/-- Witness for C10: a raw message matching neither pattern passes through. -/
theorem claim10_witness :
    (createStoryAction wEnvAnimThrows wPayload).1 =
      { success := false, data := none,
        error := some (
          if strIncludes (strToLower "anim boom") "candidate_finish_reason_safety" then
            "The AI model flagged the content for safety reasons. Please try modifying your prompts (theme, moral, details) or uploaded image."
          else if strIncludes "anim boom" "upstream" ||
              strIncludes "anim boom" "generation failed" then
            "There was an issue with the AI image generation service. Please try again later or with a different image/prompt."
          else "anim boom") } :=
  claim10_error_rewrite wEnvAnimThrows wPayload "anim boom" (by decide)

end AIStory

